import Mathlib

/-!
Verification development for the build-option composer and command runner of
`torch/_inductor/cxx_builder/cxx_builder.py`.

The Python module is embedded shallowly: every function that only computes
lists or strings becomes a Lean function of the same name; readings of the
global configuration, of environment variables and of filesystem or
subprocess probes become fields of an explicit `Config` record; the mutable
class-level lists of `BuildOptionsBase` become an explicit
`BuildOptionsState` value threaded through the constructor functions, since
in the source every instance shares those class attributes.
-/

/-- Character-list test that `pat` occurs at the head of `s`. -/
def listStartsWith : List Char → List Char → Bool
  | _, [] => true
  | [], _ :: _ => false
  | a :: as, b :: bs => a == b && listStartsWith as bs

/-- Character-list test that `pat` occurs somewhere inside `s`; this is the
model of the Python `in` operator on strings. -/
def listContainsSub : List Char → List Char → Bool
  | [], pat => listStartsWith [] pat
  | s@(_ :: t), pat => listStartsWith s pat || listContainsSub t pat

/-- Model of the Python substring test `pat in s`. -/
def strContains (s pat : String) : Bool := listContainsSub s.data pat.data

/-- Test that string `s` ends with `tail` (used to model the trailing-slash
test of `os.path.join`). -/
def strHasTail (s tail : String) : Bool := listStartsWith s.data.reverse tail.data.reverse

/-- Model of `os.path.join(a, b)` for a relative second component: the empty
first component is dropped, a separator is inserted unless already present.
(The absolute-second-component case of the Python function is never exercised
by the call sites modelled here with relative literals.) -/
def osPathJoin (a b : String) : String :=
  if a = "" then b else if strHasTail a "/" then a ++ b else a ++ "/" ++ b

/-- Model of Python `str.upper` for the ASCII strings used by the source. -/
def strUpper (s : String) : String := ⟨s.data.map Char.toUpper⟩

/-- Model of `shlex.split` for the whitespace-separated command lines built
here: split on spaces and drop empty tokens (no quoting is needed by any
claim). -/
def shlex_split (s : String) : List String :=
  (s.splitOn " ").filter (fun t => t ≠ "")

/-- Model of `cmd.replace("\\", "/")` from the Windows branch of
`get_command_line`: the pattern is a single character, so this is a
character map. -/
def replaceBackslash (s : String) : String :=
  ⟨s.data.map (fun c => if c = '\\' then '/' else c)⟩

/-- Operating system reported by `sys.platform`: exactly one of `_IS_LINUX`,
`_IS_MACOS`, `_IS_WINDOWS` holds in the source. -/
inductive OSKind where
  | linux
  | darwin
  | windows
deriving DecidableEq, Repr

/-- Environment facts read by the module: the OS and machine kind, the policy
toggles of the global `config` object, the environment variables, and the
results of the external probes (filesystem existence, `which`, the codecache
helpers and the Torch installation paths).  Each field models one reading
performed by the source; the functions below consume them exactly where the
source consults the corresponding global. -/
structure Config where
  os : OSKind
  /-- `platform.machine()` and `os.uname().machine`. -/
  machine : String
  /-- `config.aot_inductor.debug_compile`. -/
  aot_inductor_debug_compile : Bool
  /-- `config.cpp.enable_unsafe_math_opt_flag`. -/
  cpp_enable_unsafe_math_opt_flag : Bool
  /-- `config.is_fbcode()`. -/
  is_fbcode : Bool
  /-- environment variable `CXX` (Windows compiler lookup). -/
  env_cxx : Option String
  /-- result of `torch._inductor.codecache.cpp_compiler()` (not under src). -/
  cpp_compiler : String
  /-- result of the `is_apple_clang` subprocess probe on that compiler. -/
  is_apple_clang : Bool
  /-- environment variable `OMP_PREFIX`. -/
  omp_prefix_var : Option String
  /-- environment variable `CONDA_PREFIX`. -/
  conda_prefix_var : Option String
  /-- result of `codecache.is_conda_llvm_openmp_installed()` (not under src). -/
  conda_llvm_openmp_installed : Bool
  /-- result of `codecache.homebrew_libomp()` (not under src). -/
  homebrew_libomp : Bool × String
  /-- `os.path.exists` oracle. -/
  path_exists : String → Bool
  /-- oracle for the `which <path>` probe used by `cuda_env.nvcc_exist`. -/
  which_ok : String → Bool
  /-- `str(codecache.chosen_isa)` (not under src). -/
  chosen_isa : String
  /-- `chosen_isa.build_arch_flags()` (not under src). -/
  isa_arch_flags : String
  /-- `torch.utils.cpp_extension._TORCH_PATH`. -/
  torch_path : String
  /-- `torch.utils.cpp_extension.TORCH_LIB_PATH`. -/
  torch_lib_path : String
  /-- `sysconfig.get_path("include", ...)`. -/
  python_include_path : Option String
  /-- `sysconfig.get_config_var("LIBDIR")`, modelled as a string. -/
  python_lib_dir : String
  /-- `os.path.dirname(sys.executable)` (Windows python libs lookup). -/
  python_exec_dir : String
  /-- `torch._C._GLIBCXX_USE_CXX11_ABI`. -/
  glibcxx_abi : Bool
  /-- `config.cuda.cutlass_dir`. -/
  cutlass_dir : String
  /-- `torch.utils.cpp_extension._join_cuda_home` base (the CUDA home). -/
  cuda_home : String
  /-- `config.cuda.cuda_cxx`. -/
  cuda_cxx : Option String
  /-- environment variable `CUDACXX`. -/
  env_cudacxx : Option String
  /-- environment variable `CUDA_HOME`. -/
  env_cuda_home : Option String
  /-- `cuda_env.get_cuda_arch()` (not under src). -/
  cuda_arch : String
  /-- `config.cuda.enable_cuda_lto`. -/
  enable_cuda_lto : Bool
  /-- `config.cuda.enable_debug_info`. -/
  enable_debug_info : Bool
  /-- `config.cuda.enable_ptxas_info`. -/
  enable_ptxas_info : Bool
  /-- `config.cuda.use_fast_math`. -/
  use_fast_math : Bool
  /-- `config.cuda.compile_opt_level`. -/
  compile_opt_level : String

/-- Source line 41: scratch-directory name component. -/
def _BUILD_TEMP_DIR : String := "CxxBuild"

/-- Source lines 110-111: the regex `(gcc|g\+\+)` matches iff one of the two
literals occurs as a substring. -/
def is_gcc (cpp_compiler : String) : Bool :=
  strContains cpp_compiler "gcc" || strContains cpp_compiler "g++"

/-- Source lines 114-115: the regex `(clang|clang\+\+)` matches iff `clang`
occurs as a substring (the second alternative contains the first). -/
def is_clang (cpp_compiler : String) : Bool :=
  strContains cpp_compiler "clang"

/-- Source lines 49-56: on Windows the compiler is `os.environ.get("CXX", "cl")`,
elsewhere it is `codecache.cpp_compiler()`. -/
def _get_cxx_compiler (cfg : Config) : String :=
  if cfg.os = OSKind.windows then cfg.env_cxx.getD "cl" else cfg.cpp_compiler

/-- Source lines 59-62: append each item of `src_list` to `dest_list` unless
already present. -/
def _nonduplicate_append (dest_list src_list : List String) : List String :=
  src_list.foldl (fun dest item => if item ∈ dest then dest else dest ++ [item]) dest_list

/-- Successive `_nonduplicate_append` calls with a fixed destination:
`ndaChain d [l1, l2]` is definitionally
`_nonduplicate_append (_nonduplicate_append d l1) l2`, the shape of every
`__init__` body in the source. -/
def ndaChain (d : List String) (ss : List (List String)) : List String :=
  ss.foldl _nonduplicate_append d

theorem ndaChain_two (d a b : List String) :
    ndaChain d [a, b] = _nonduplicate_append (_nonduplicate_append d a) b := rfl

theorem mem_nda {x : String} {d s : List String} :
    x ∈ _nonduplicate_append d s ↔ x ∈ d ∨ x ∈ s := by
  induction s generalizing d with
  | nil => simp [_nonduplicate_append]
  | cons i t ih =>
    show x ∈ _nonduplicate_append (if i ∈ d then d else d ++ [i]) t ↔ _
    by_cases hi : i ∈ d
    · simp only [if_pos hi, ih]
      constructor
      · rintro (h | h)
        · exact Or.inl h
        · exact Or.inr (List.mem_cons_of_mem _ h)
      · rintro (h | h)
        · exact Or.inl h
        · rcases List.mem_cons.mp h with h | h
          · exact Or.inl (h ▸ hi)
          · exact Or.inr h
    · simp only [if_neg hi, ih, List.mem_append, List.mem_singleton, List.mem_cons]
      tauto

theorem nda_nodup {d : List String} (s : List String) (h : d.Nodup) :
    (_nonduplicate_append d s).Nodup := by
  induction s generalizing d with
  | nil => exact h
  | cons i t ih =>
    show (_nonduplicate_append (if i ∈ d then d else d ++ [i]) t).Nodup
    by_cases hi : i ∈ d
    · rw [if_pos hi]; exact ih h
    · rw [if_neg hi]
      refine ih (List.nodup_append.mpr ⟨h, List.nodup_singleton i, ?_⟩)
      intro a ha hb
      rw [List.mem_singleton] at hb
      exact hi (hb ▸ ha)

theorem nda_extendsBy (d s : List String) :
    ∃ t, _nonduplicate_append d s = d ++ t := by
  induction s generalizing d with
  | nil => exact ⟨[], (List.append_nil d).symm⟩
  | cons i t ih =>
    show ∃ u, _nonduplicate_append (if i ∈ d then d else d ++ [i]) t = d ++ u
    by_cases hi : i ∈ d
    · rw [if_pos hi]; exact ih d
    · rw [if_neg hi]
      obtain ⟨u, hu⟩ := ih (d ++ [i])
      exact ⟨[i] ++ u, by rw [hu, List.append_assoc]⟩

theorem nda_saturated {d : List String} (s : List String) (h : ∀ x ∈ s, x ∈ d) :
    _nonduplicate_append d s = d := by
  induction s with
  | nil => rfl
  | cons i t ih =>
    show _nonduplicate_append (if i ∈ d then d else d ++ [i]) t = d
    rw [if_pos (h i (List.mem_cons_self i t))]
    exact ih (fun x hx => h x (List.mem_cons_of_mem _ hx))

theorem ndaChain_append_chain (d : List String) (xs ys : List (List String)) :
    ndaChain (ndaChain d xs) ys = ndaChain d (xs ++ ys) :=
  (List.foldl_append _ _ _ _).symm

theorem mem_ndaChain {x : String} {d : List String} {ss : List (List String)} :
    x ∈ ndaChain d ss ↔ x ∈ d ∨ ∃ l ∈ ss, x ∈ l := by
  induction ss generalizing d with
  | nil => simp [ndaChain]
  | cons s t ih =>
    show x ∈ ndaChain (_nonduplicate_append d s) t ↔ _
    rw [ih, mem_nda]
    constructor
    · rintro ((h | h) | ⟨l, hl, hx⟩)
      · exact Or.inl h
      · exact Or.inr ⟨s, List.mem_cons_self s t, h⟩
      · exact Or.inr ⟨l, List.mem_cons_of_mem _ hl, hx⟩
    · rintro (h | ⟨l, hl, hx⟩)
      · exact Or.inl (Or.inl h)
      · rcases List.mem_cons.mp hl with h | h
        · exact Or.inl (Or.inr (h ▸ hx))
        · exact Or.inr ⟨l, h, hx⟩

theorem ndaChain_saturated {d : List String} (ss : List (List String))
    (h : ∀ l ∈ ss, ∀ x ∈ l, x ∈ d) : ndaChain d ss = d := by
  induction ss with
  | nil => rfl
  | cons s t ih =>
    show ndaChain (_nonduplicate_append d s) t = d
    rw [nda_saturated s (h s (List.mem_cons_self s t))]
    exact ih (fun l hl x hx => h l (List.mem_cons_of_mem _ hl) x hx)

theorem ndaChain_idem (d : List String) (ss : List (List String)) :
    ndaChain (ndaChain d ss) ss = ndaChain d ss :=
  ndaChain_saturated ss
    (fun l hl x hx => mem_ndaChain.mpr (Or.inr ⟨l, hl, hx⟩))

theorem ndaChain_nodup {d : List String} (ss : List (List String)) (h : d.Nodup) :
    (ndaChain d ss).Nodup := by
  induction ss generalizing d with
  | nil => exact h
  | cons s t ih => exact ih (nda_nodup s h)

theorem ndaChain_extendsBy (d : List String) (ss : List (List String)) :
    ∃ t, ndaChain d ss = d ++ t := by
  induction ss generalizing d with
  | nil => exact ⟨[], (List.append_nil d).symm⟩
  | cons s t ih =>
    obtain ⟨u, hu⟩ := nda_extendsBy d s
    obtain ⟨v, hv⟩ := ih (_nonduplicate_append d s)
    exact ⟨u ++ v, by rw [show ndaChain d (s :: t) = ndaChain (_nonduplicate_append d s) t from rfl, hv, hu, List.append_assoc]⟩

/-- Source lines 168-172: `-Wall` outside Windows when requested (the
`CxxOptions` call site uses the default `warning_all = False`). -/
def get_warning_all_flag (cfg : Config) (warning_all : Bool) : List String :=
  if ¬ (cfg.os = OSKind.windows) then (if warning_all then ["Wall"] else []) else []

/-- Source lines 175-179: the C++ standard switch. -/
def get_cxx_std (cfg : Config) (std_num : String) : List String :=
  if cfg.os = OSKind.windows then ["std:" ++ std_num] else ["std=" ++ std_num]

/-- Source lines 182-189: warning-suppression flags outside Windows, plus a
clang-only flag. -/
def get_linux_cpp_cflags (cfg : Config) (cpp_compiler : String) : List String :=
  if ¬ (cfg.os = OSKind.windows) then
    ["Wno-unused-variable", "Wno-unknown-pragmas"]
      ++ (if is_clang cpp_compiler then ["Werror=ignored-optimization-argument"] else [])
  else []

/-- Source lines 192-223: the optimization-level policy table. -/
def optimization_cflags (cfg : Config) : List String :=
  if cfg.os = OSKind.windows then ["O2"]
  else
    let cflags := if cfg.aot_inductor_debug_compile then ["O0", "g"] else ["O3", "DNDEBUG"]
    let cflags := cflags ++ ["ffast-math"]
    let cflags := cflags ++ ["fno-finite-math-only"]
    let cflags :=
      if ¬ cfg.cpp_enable_unsafe_math_opt_flag then cflags ++ ["fno-unsafe-math-optimizations"]
      else cflags
    if cfg.is_fbcode then cflags
    else if cfg.os = OSKind.darwin then cflags ++ ["Xclang"]
    else if cfg.machine = "ppc64le" then cflags ++ ["mcpu=native"]
    else cflags ++ ["march=native"]

/-- Source lines 240-242: shared-library flags. -/
def _get_shared_cflag (cfg : Config) : List String :=
  if cfg.os = OSKind.windows then ["DLL"] else ["shared", "fPIC"]

/-- Source lines 256-257. -/
def get_glibcxx_abi_build_flags (cfg : Config) : List String :=
  ["-D_GLIBCXX_USE_CXX11_ABI=" ++ (if cfg.glibcxx_abi then "1" else "0")]

/-- Source lines 260-261. -/
def get_torch_cpp_wrapper_defination : List String :=
  ["TORCH_INDUCTOR_CPP_WRAPPER"]

/-- Source lines 264-265 (the leading space is in the source literal). -/
def use_custom_generated_macros : List String :=
  [" C10_USING_CUSTOM_GENERATED_MACROS"]

/-- Source lines 268-284: fbcode-only preprocessor flags outside Windows. -/
def use_fb_internal_macros (cfg : Config) : List String :=
  if ¬ (cfg.os = OSKind.windows) then
    if cfg.is_fbcode then
      ["-D C10_USE_GLOG -D C10_USE_MINIMAL_GLOG -D C10_DISABLE_TENSORIMPL_EXTENSIBILITY"]
    else []
  else []

/-- Source lines 287-294. -/
def use_standard_sys_dir_headers (cfg : Config) : List String :=
  if cfg.os = OSKind.windows then []
  else if cfg.is_fbcode then ["nostdinc"] else []

/-- Source lines 311-323: CPU-capability macros and architecture flags from
the chosen ISA. -/
def get_build_args_of_chosen_isa (cfg : Config) : List String × List String :=
  let cap := strUpper cfg.chosen_isa
  (["CPU_CAPABILITY=" ++ cap, "CPU_CAPABILITY_" ++ cap, "HAVE_" ++ cap ++ "_CPU_DEFINITION"],
   [cfg.isa_arch_flags])

/-- Source lines 326-339: Torch include roots, library directory and library
names (the nested `os.path.join` literals are flattened to single relative
components). -/
def get_torch_related_args (cfg : Config) : List String × List String × List String :=
  ([osPathJoin cfg.torch_path "include",
    osPathJoin cfg.torch_path "include/torch/csrc/api/include",
    osPathJoin cfg.torch_path "include/TH",
    osPathJoin cfg.torch_path "include/THC"],
   [cfg.torch_lib_path],
   ["torch", "torch_cpu", "c10"])

/-- Source lines 342-356. -/
def get_python_related_args (cfg : Config) : List String × List String :=
  let python_include_dirs :=
    match cfg.python_include_path with
    | some p => [p]
    | none => []
  let python_lib_path :=
    if cfg.os = OSKind.windows then [osPathJoin cfg.python_exec_dir "libs"]
    else [cfg.python_lib_dir]
  (python_include_dirs, python_lib_path)

/-- Return value of `get_openmp_args` (source line 431). -/
structure OpenmpArgs where
  cflags : List String
  ldflags : List String
  include_dir_paths : List String
  lib_dir_paths : List String
  libs : List String
deriving DecidableEq, Repr

/-- Source lines 359-431: the OpenMP policy.  On macOS the probes walk
`OMP_PREFIX`, conda, then homebrew; on Windows the native switch is used; on
Linux fbcode links `omp` while both the clang and the gcc branch of the
source link `gomp` (the two arms of the `if is_clang` are identical). -/
def get_openmp_args (cfg : Config) (cpp_compiler : String) : OpenmpArgs :=
  if cfg.os = OSKind.darwin then
    let omp_available := !cfg.is_apple_clang
    let step1 :
        List String × List String × Bool :=
      match cfg.omp_prefix_var with
      | some omp_prefix_dir =>
        let header_path := osPathJoin (osPathJoin omp_prefix_dir "include") "omp.h"
        let valid_env := cfg.path_exists header_path
        if valid_env then
          ([osPathJoin omp_prefix_dir "include"], [osPathJoin omp_prefix_dir "lib"],
           omp_available || valid_env)
        else ([], [], omp_available || valid_env)
      | none => ([], [], omp_available)
    let include_dir_paths := step1.1
    let lib_dir_paths := step1.2.1
    let omp_available := step1.2.2
    let libs := if !omp_available then ["omp"] else []
    let step2 :
        List String × List String × List String × Bool :=
      match cfg.conda_prefix_var with
      | some conda_prefix_dir =>
        if !omp_available then
          let omp_available := cfg.conda_llvm_openmp_installed
          if omp_available then
            let conda_lib_path := osPathJoin conda_prefix_dir "lib"
            let libs :=
              if cfg.machine = "x86_64"
                  ∧ cfg.path_exists (osPathJoin conda_lib_path "libiomp5.dylib") then
                libs ++ ["iomp5"]
              else libs
            (include_dir_paths ++ [osPathJoin conda_prefix_dir "include"],
             lib_dir_paths ++ [conda_lib_path], libs, omp_available)
          else (include_dir_paths, lib_dir_paths, libs, omp_available)
        else (include_dir_paths, lib_dir_paths, libs, omp_available)
      | none => (include_dir_paths, lib_dir_paths, libs, omp_available)
    let include_dir_paths := step2.1
    let lib_dir_paths := step2.2.1
    let libs := step2.2.2.1
    let omp_available := step2.2.2.2
    let step3 : List String × List String :=
      if !omp_available then
        if cfg.homebrew_libomp.1 then
          (include_dir_paths ++ [osPathJoin cfg.homebrew_libomp.2 "include"],
           lib_dir_paths ++ [osPathJoin cfg.homebrew_libomp.2 "lib"])
        else (include_dir_paths, lib_dir_paths)
      else (include_dir_paths, lib_dir_paths)
    { cflags := [], ldflags := [], include_dir_paths := step3.1,
      lib_dir_paths := step3.2, libs := libs }
  else if cfg.os = OSKind.windows then
    { cflags := ["openmp"], ldflags := [], include_dir_paths := [],
      lib_dir_paths := [], libs := [] }
  else
    if cfg.is_fbcode then
      { cflags := [], ldflags := [], include_dir_paths := [], lib_dir_paths := [],
        libs := ["omp"] }
    else if is_clang cpp_compiler then
      { cflags := ["fopenmp"], ldflags := [], include_dir_paths := [],
        lib_dir_paths := [], libs := ["gomp"] }
    else
      { cflags := ["fopenmp"], ldflags := [], include_dir_paths := [],
        lib_dir_paths := [], libs := ["gomp"] }

/-- Source lines 124-165: the list attributes of `BuildOptionsBase`.  In the
source these are class-level attributes, so every instance of the class
hierarchy reads and mutates the same seven lists; the constructors below are
therefore functions from the current shared state to the next one. -/
structure BuildOptionsState where
  _compiler : String
  _definations : List String
  _include_dirs : List String
  _cflags : List String
  _ldflags : List String
  _libraries_dirs : List String
  _libraries : List String
  _passthough_args : List String
deriving DecidableEq, Repr

/-- Source lines 131-138: the pristine class attributes before any instance
has been constructed. -/
def emptyBuildOptions : BuildOptionsState :=
  { _compiler := "", _definations := [], _include_dirs := [], _cflags := [],
    _ldflags := [], _libraries_dirs := [], _libraries := [], _passthough_args := [] }

/-- Per-field lists of sources that one constructor passes to
`_nonduplicate_append`, in call order. -/
structure SrcsSpec where
  defs : List (List String)
  incs : List (List String)
  cfl : List (List String)
  ldf : List (List String)
  libdirs : List (List String)
  libs : List (List String)
  pass : List (List String)

/-- Run the `_nonduplicate_append` chains of one constructor over the shared
state and install the resolved compiler. -/
def applyChains (c : String) (L : SrcsSpec) (s : BuildOptionsState) : BuildOptionsState :=
  { _compiler := c,
    _definations := ndaChain s._definations L.defs,
    _include_dirs := ndaChain s._include_dirs L.incs,
    _cflags := ndaChain s._cflags L.cfl,
    _ldflags := ndaChain s._ldflags L.ldf,
    _libraries_dirs := ndaChain s._libraries_dirs L.libdirs,
    _libraries := ndaChain s._libraries L.libs,
    _passthough_args := ndaChain s._passthough_args L.pass }

theorem applyChains_idem (c : String) (L : SrcsSpec) (s : BuildOptionsState) :
    applyChains c L (applyChains c L s) = applyChains c L s := by
  simp only [applyChains, ndaChain_idem]

/-- All seven lists of a state are duplicate-free. -/
def nodupState (s : BuildOptionsState) : Prop :=
  s._definations.Nodup ∧ s._include_dirs.Nodup ∧ s._cflags.Nodup ∧ s._ldflags.Nodup
    ∧ s._libraries_dirs.Nodup ∧ s._libraries.Nodup ∧ s._passthough_args.Nodup

theorem applyChains_nodup (c : String) (L : SrcsSpec) (s : BuildOptionsState)
    (h : nodupState s) : nodupState (applyChains c L s) := by
  obtain ⟨h1, h2, h3, h4, h5, h6, h7⟩ := h
  exact ⟨ndaChain_nodup _ h1, ndaChain_nodup _ h2, ndaChain_nodup _ h3, ndaChain_nodup _ h4,
    ndaChain_nodup _ h5, ndaChain_nodup _ h6, ndaChain_nodup _ h7⟩

theorem emptyBuildOptions_nodup : nodupState emptyBuildOptions := by
  exact ⟨List.nodup_nil, List.nodup_nil, List.nodup_nil, List.nodup_nil,
    List.nodup_nil, List.nodup_nil, List.nodup_nil⟩

/-- Every list of the earlier state `s` stays in place as a front segment of
the corresponding list of the later state `s2`. -/
def extendsState (s s2 : BuildOptionsState) : Prop :=
  (∃ t, s2._definations = s._definations ++ t)
    ∧ (∃ t, s2._include_dirs = s._include_dirs ++ t)
    ∧ (∃ t, s2._cflags = s._cflags ++ t)
    ∧ (∃ t, s2._ldflags = s._ldflags ++ t)
    ∧ (∃ t, s2._libraries_dirs = s._libraries_dirs ++ t)
    ∧ (∃ t, s2._libraries = s._libraries ++ t)
    ∧ (∃ t, s2._passthough_args = s._passthough_args ++ t)

theorem applyChains_extendsState (c : String) (L : SrcsSpec) (s : BuildOptionsState) :
    extendsState s (applyChains c L s) :=
  ⟨ndaChain_extendsBy _ _, ndaChain_extendsBy _ _, ndaChain_extendsBy _ _,
   ndaChain_extendsBy _ _, ndaChain_extendsBy _ _, ndaChain_extendsBy _ _,
   ndaChain_extendsBy _ _⟩

theorem extendsState_trans {a b c : BuildOptionsState}
    (h1 : extendsState a b) (h2 : extendsState b c) : extendsState a c := by
  obtain ⟨⟨t1, e1⟩, ⟨t2, e2⟩, ⟨t3, e3⟩, ⟨t4, e4⟩, ⟨t5, e5⟩, ⟨t6, e6⟩, ⟨t7, e7⟩⟩ := h1
  obtain ⟨⟨u1, f1⟩, ⟨u2, f2⟩, ⟨u3, f3⟩, ⟨u4, f4⟩, ⟨u5, f5⟩, ⟨u6, f6⟩, ⟨u7, f7⟩⟩ := h2
  refine ⟨⟨t1 ++ u1, ?_⟩, ⟨t2 ++ u2, ?_⟩, ⟨t3 ++ u3, ?_⟩, ⟨t4 ++ u4, ?_⟩,
    ⟨t5 ++ u5, ?_⟩, ⟨t6 ++ u6, ?_⟩, ⟨t7 ++ u7, ?_⟩⟩
  all_goals simp_all [List.append_assoc]

/-- Source lines 244-253, `CxxOptions.__init__`: resolve the compiler and
run the five `_nonduplicate_append` calls on `_cflags` of the shared state. -/
def CxxOptions_init (cfg : Config) (s : BuildOptionsState) : BuildOptionsState :=
  let compiler := _get_cxx_compiler cfg
  { s with
    _compiler := compiler,
    _cflags := ndaChain s._cflags
      [_get_shared_cflag cfg, optimization_cflags cfg, get_warning_all_flag cfg false,
       get_cxx_std cfg "c++17", get_linux_cpp_cflags cfg compiler] }

/-- Chain sources of `CxxOptions.__init__` by field. -/
def cxxSrcs (cfg : Config) : SrcsSpec :=
  { defs := [], incs := [],
    cfl := [_get_shared_cflag cfg, optimization_cflags cfg, get_warning_all_flag cfg false,
            get_cxx_std cfg "c++17", get_linux_cpp_cflags cfg (_get_cxx_compiler cfg)],
    ldf := [], libdirs := [], libs := [], pass := [] }

theorem CxxOptions_init_canon (cfg : Config) (s : BuildOptionsState) :
    CxxOptions_init cfg s = applyChains (_get_cxx_compiler cfg) (cxxSrcs cfg) s := rfl

/-- Source lines 446-489, `CxxTorchOptions.__init__`: run the base
constructor, then append the Torch, ISA, Python, OpenMP and ABI sources in
the order of the source. -/
def CxxTorchOptions_init (cfg : Config) (s0 : BuildOptionsState) : BuildOptionsState :=
  let s := CxxOptions_init cfg s0
  let isa := get_build_args_of_chosen_isa cfg
  let torch_args := get_torch_related_args cfg
  let py_args := get_python_related_args cfg
  let omp := get_openmp_args cfg s._compiler
  { s with
    _definations := ndaChain s._definations
      [get_torch_cpp_wrapper_defination, use_custom_generated_macros, isa.1],
    _cflags := ndaChain s._cflags [use_standard_sys_dir_headers cfg, omp.cflags],
    _passthough_args := ndaChain s._passthough_args
      ([isa.2]
        ++ (if cfg.os = OSKind.windows then []
            else [get_glibcxx_abi_build_flags cfg, use_fb_internal_macros cfg])),
    _include_dirs := ndaChain s._include_dirs
      [torch_args.1, py_args.1, omp.include_dir_paths],
    _libraries_dirs := ndaChain s._libraries_dirs
      [torch_args.2.1, py_args.2, omp.lib_dir_paths],
    _libraries := ndaChain s._libraries [torch_args.2.2, omp.libs],
    _ldflags := ndaChain s._ldflags [omp.ldflags] }

/-- Chain sources of `CxxTorchOptions.__init__` by field (base sources
first). -/
def torchSrcs (cfg : Config) : SrcsSpec :=
  { defs := [get_torch_cpp_wrapper_defination, use_custom_generated_macros,
             (get_build_args_of_chosen_isa cfg).1],
    incs := [(get_torch_related_args cfg).1, (get_python_related_args cfg).1,
             (get_openmp_args cfg (_get_cxx_compiler cfg)).include_dir_paths],
    cfl := (cxxSrcs cfg).cfl
      ++ [use_standard_sys_dir_headers cfg,
          (get_openmp_args cfg (_get_cxx_compiler cfg)).cflags],
    ldf := [(get_openmp_args cfg (_get_cxx_compiler cfg)).ldflags],
    libdirs := [(get_torch_related_args cfg).2.1, (get_python_related_args cfg).2,
                (get_openmp_args cfg (_get_cxx_compiler cfg)).lib_dir_paths],
    libs := [(get_torch_related_args cfg).2.2,
             (get_openmp_args cfg (_get_cxx_compiler cfg)).libs],
    pass := [(get_build_args_of_chosen_isa cfg).2]
      ++ (if cfg.os = OSKind.windows then []
          else [get_glibcxx_abi_build_flags cfg, use_fb_internal_macros cfg]) }

theorem CxxTorchOptions_init_canon (cfg : Config) (s : BuildOptionsState) :
    CxxTorchOptions_init cfg s = applyChains (_get_cxx_compiler cfg) (torchSrcs cfg) s := rfl

/-- Modelled from the spec: `cuda_env.nvcc_exist` of
`torch/_inductor/codegen/cuda/cuda_env.py` is not under src/.  Per the spec
the CUDA probe checks whether a candidate path names an existing `nvcc`
(resolved through a `which`-style lookup, here the `which_ok` oracle); a
missing (`None`) candidate never names one. -/
def nvcc_exist (cfg : Config) : Option String → Bool
  | none => false
  | some p => cfg.which_ok p

/-- Source lines 492-499: try `config.cuda.cuda_cxx`, then `CUDACXX`, then
`CUDA_HOME/bin/nvcc`, and finally fall back to the literal `nvcc`. -/
def _cuda_compiler (cfg : Config) : Option String :=
  if nvcc_exist cfg cfg.cuda_cxx then cfg.cuda_cxx
  else if nvcc_exist cfg cfg.env_cudacxx then some (cfg.env_cudacxx.getD "")
  else if nvcc_exist cfg cfg.env_cuda_home then
    some (osPathJoin (cfg.env_cuda_home.getD "") "bin/nvcc")
  else some "nvcc"

/-- Source lines 502-533: CUTLASS include roots plus the CUDA library
directories and names; the non-Linux branch raises `NotImplementedError`
before reaching any of this, which `CxxTorchCudaOptions_init` models as its
error component. -/
def get_torch_cuda_args (cfg : Config) : List String × List String × List String :=
  let cutlass_path := cfg.cutlass_dir
  let cuda_include_dirs :=
    [osPathJoin cutlass_path "include",
     osPathJoin cutlass_path "tools/library/include",
     osPathJoin cutlass_path "tools/library/src",
     osPathJoin cutlass_path "tools/util/include"]
  let extra_lib_dir :=
    if ¬ cfg.path_exists (osPathJoin cfg.cuda_home "lib64")
        ∧ cfg.path_exists (osPathJoin cfg.cuda_home "lib") then "lib"
    else "lib64"
  let cuda_lib_dirs :=
    [osPathJoin cfg.cuda_home extra_lib_dir,
     osPathJoin (osPathJoin cfg.cuda_home extra_lib_dir) "stubs"]
  (cuda_include_dirs, ["cuda", "cudart"], cuda_lib_dirs)

/-- Source lines 536-546. -/
def get_nvcc_host_compiler_options (cfg : Config) : List String :=
  if ¬ (cfg.os = OSKind.windows) then
    ["fPIC", "fno-strict-aliasing", "fvisibility=hidden", "Wconversion"]
  else []

/-- Source lines 549-615 (non-Windows branch; the Windows branch raises and
is unreachable from the Linux-gated caller): nvcc flags, defines and
pass-through options in source order. -/
def get_nvcc_compiler_options (cfg : Config) : List String × List String × List String :=
  let arch := if cfg.cuda_arch = "90" then "90a" else cfg.cuda_arch
  let code := ["sm_" ++ arch, "compute_" ++ arch]
    ++ (if cfg.enable_cuda_lto then ["lto_" ++ arch] else [])
  let cuda_cflags := ["t=0"]
    ++ (if cfg.enable_debug_info then ["lineinfo", "g"] else [])
  let cuda_defines := ["CUTLASS_ENABLE_TENSOR_CORE_MMA=1"]
    ++ (if cfg.enable_debug_info then ["CUTLASS_DEBUG_TRACE_LEVEL=1"] else [])
    ++ (if cfg.use_fast_math then ["CUTLASS_USE_TANH_FOR_SIGMOID=1"] else [])
  let cuda_pass_args :=
    ["-w", "-gencode=arch=compute_" ++ arch ++ ",code=[" ++ String.intercalate "," code ++ "]",
     cfg.compile_opt_level, "--expt-relaxed-constexpr"]
    ++ (if cfg.enable_ptxas_info then
          ["--keep", "--ptxas-options=--warn-on-local-memory-usage",
           "--ptxas-options=--warn-on-spills", "--resource-usage", "--source-in-ptx"]
        else [])
    ++ (if cfg.use_fast_math then ["--use_fast_math"] else [])
  (cuda_cflags, cuda_defines, cuda_pass_args)

/-- Message of the `NotImplementedError` raised by `get_torch_cuda_args` on
a non-Linux host (source lines 529-531). -/
def cudaUnsupportedMsg : String :=
  "Unsupported env, failed to find cuda libs! Currently only Linux is supported."

/-- Source lines 625-642, `CxxTorchCudaOptions.__init__`: run the Torch
constructor, swap in the CUDA compiler when one was resolved, then append the
CUDA sources.  On a non-Linux host `get_torch_cuda_args` raises before any
CUDA append; the raise is modelled as the `Option String` error component,
with the shared state left as the partially-updated state at the raise. -/
def CxxTorchCudaOptions_init (cfg : Config) (s0 : BuildOptionsState) :
    BuildOptionsState × Option String :=
  let s1 := CxxTorchOptions_init cfg s0
  let s :=
    match _cuda_compiler cfg with
    | some nvcc => { s1 with _compiler := nvcc }
    | none => s1
  if cfg.os = OSKind.linux then
    let tc := get_torch_cuda_args cfg
    let hostc := get_nvcc_host_compiler_options cfg
    let nv := get_nvcc_compiler_options cfg
    ({ s with
       _include_dirs := ndaChain s._include_dirs [tc.1],
       _libraries := ndaChain s._libraries [tc.2.1],
       _libraries_dirs := ndaChain s._libraries_dirs [tc.2.2],
       _cflags := ndaChain s._cflags [hostc, nv.1, nv.2.1, nv.2.2] }, none)
  else (s, some cudaUnsupportedMsg)

/-- Compiler installed by `CxxTorchCudaOptions.__init__` (lines 628-631):
the resolved CUDA compiler when `_cuda_compiler` returned one, otherwise the
compiler left by the Torch constructor. -/
def cuda_resolved_compiler (cfg : Config) : String :=
  match _cuda_compiler cfg with
  | some nvcc => nvcc
  | none => _get_cxx_compiler cfg

/-- Chain sources of `CxxTorchCudaOptions.__init__` by field (Torch sources
first; the CUDA sources are appended only on Linux). -/
def cudaSrcs (cfg : Config) : SrcsSpec :=
  { defs := (torchSrcs cfg).defs,
    incs := (torchSrcs cfg).incs
      ++ (if cfg.os = OSKind.linux then [(get_torch_cuda_args cfg).1] else []),
    cfl := (torchSrcs cfg).cfl
      ++ (if cfg.os = OSKind.linux then
            [get_nvcc_host_compiler_options cfg, (get_nvcc_compiler_options cfg).1,
             (get_nvcc_compiler_options cfg).2.1, (get_nvcc_compiler_options cfg).2.2]
          else []),
    ldf := (torchSrcs cfg).ldf,
    libdirs := (torchSrcs cfg).libdirs
      ++ (if cfg.os = OSKind.linux then [(get_torch_cuda_args cfg).2.2] else []),
    libs := (torchSrcs cfg).libs
      ++ (if cfg.os = OSKind.linux then [(get_torch_cuda_args cfg).2.1] else []),
    pass := (torchSrcs cfg).pass }

/-- Error component of `CxxTorchCudaOptions_init`. -/
def cudaErr (cfg : Config) : Option String :=
  if cfg.os = OSKind.linux then none else some cudaUnsupportedMsg

theorem CxxTorchCudaOptions_init_canon (cfg : Config) (s : BuildOptionsState) :
    CxxTorchCudaOptions_init cfg s
      = (applyChains (cuda_resolved_compiler cfg) (cudaSrcs cfg) s, cudaErr cfg) := by
  unfold CxxTorchCudaOptions_init cuda_resolved_compiler cudaErr cudaSrcs
  rw [CxxTorchOptions_init_canon]
  cases h : _cuda_compiler cfg with
  | some nvcc =>
    by_cases hl : cfg.os = OSKind.linux
    · simp only [hl, if_pos, reduceIte]
      refine Prod.ext ?_ rfl
      simp [applyChains, ndaChain_append_chain]
    · simp only [hl, reduceIte]
      refine Prod.ext ?_ rfl
      simp [applyChains, hl]
  | none =>
    by_cases hl : cfg.os = OSKind.linux
    · simp only [hl, if_pos, reduceIte]
      refine Prod.ext ?_ rfl
      simp [applyChains, ndaChain_append_chain]
    · simp only [hl, reduceIte]
      refine Prod.ext ?_ rfl
      simp [applyChains, hl]

/-- Structured compile error `exc.CppCompileError(cmd, output)` raised by
`run_command_line` (source line 106): the split command and the captured
combined output. -/
structure CppCompileError where
  cmd : List String
  output : String
deriving DecidableEq, Repr

/-- Remediation text appended on macOS OpenMP failures (source lines
96-104). -/
def openmp_instruction : String :=
  "\n\nOpenMP support not found. Please try one of the following solutions:\n"
    ++ "(1) Set the `CXX` environment variable to a compiler other than Apple clang++/g++ "
    ++ "that has builtin OpenMP support;\n"
    ++ "(2) install OpenMP via conda: `conda install llvm-openmp`;\n"
    ++ "(3) install libomp via brew: `brew install libomp`;\n"
    ++ "(4) manually setup OpenMP and set the `OMP_PREFIX` environment variable to point to a path"
    ++ " with `include/omp.h` under it."

/-- Source lines 88-107, `run_command_line`: split the command line and run
it; `subprocess.check_output` yields the captured combined output on exit
status zero and raises otherwise, in which case the output (with the macOS
OpenMP remediation appended when it matches) is wrapped in a
`CppCompileError`.  The subprocess outcome is an input: its exit status and
its captured combined stdout/stderr. -/
def run_command_line (darwin : Bool) (cmd_line : String) (exitStatus : Nat)
    (output : String) : Except CppCompileError String :=
  let cmd := shlex_split cmd_line
  if exitStatus = 0 then Except.ok output
  else
    let openmp_problem :=
      strContains output "\x27omp.h\x27 file not found" || strContains output "libomp"
    let output :=
      if openmp_problem && darwin then output ++ openmp_instruction else output
    Except.error { cmd := cmd, output := output }

/-- Directories existing on the filesystem (files are not tracked; no claim
needs them). -/
structure FS where
  dirs : List String
deriving DecidableEq, Repr

/-- Source lines 65-73: create the directory unless present. -/
def _create_if_dir_not_exist (fs : FS) (path_dir : String) : FS :=
  if path_dir ∈ fs.dirs then fs else { dirs := fs.dirs ++ [path_dir] }

/-- Source lines 76-85: when the directory exists, walk it bottom-up deleting
contents, then delete it; on the directory set this removes the directory and
everything below it. -/
def _remove_dir (fs : FS) (path_dir : String) : FS :=
  { dirs := fs.dirs.filter
      (fun p => !(p == path_dir || listStartsWith p.data (path_dir ++ "/").data)) }

/-- Source lines 660-662. -/
def get_shared_lib_ext (cfg : Config) : String :=
  if cfg.os = OSKind.windows then ".dll" else ".so"

/-- Rendering of one compiler flag (source lines 685-689). -/
def cflag_arg (windows : Bool) (cflag : String) : String :=
  if windows then "/" ++ cflag ++ " " else "-" ++ cflag ++ " "

/-- Rendering of one preprocessor defination (source lines 691-695). -/
def defination_arg (windows : Bool) (defination : String) : String :=
  if windows then "/D " ++ defination ++ " " else "-D" ++ defination ++ " "

/-- Rendering of one include directory (source lines 697-701). -/
def include_dir_arg (windows : Bool) (inc_dir : String) : String :=
  if windows then "/I " ++ inc_dir ++ " " else "-I" ++ inc_dir ++ " "

/-- Rendering of one linker flag (source lines 703-707). -/
def ldflag_arg (windows : Bool) (ldflag : String) : String :=
  if windows then "/" ++ ldflag ++ " " else "-" ++ ldflag ++ " "

/-- Rendering of one library directory (source lines 709-713). -/
def libraries_dir_arg (windows : Bool) (lib_dir : String) : String :=
  if windows then "/LIBPATH:\"" ++ lib_dir ++ "\" " else "-L" ++ lib_dir ++ " "

/-- Rendering of one library reference (source lines 715-719). -/
def library_arg (windows : Bool) (lib : String) : String :=
  if windows then "\"" ++ lib ++ ".lib\" " else "-l" ++ lib ++ " "

/-- Rendering of one pass-through argument, forwarded verbatim (source lines
721-722). -/
def passthough_arg_fmt (passthough_arg : String) : String := passthough_arg ++ " "

/-- Accumulation loop `self._x_args += f(item)` over one option list. -/
def accumArgs (f : String → String) (xs : List String) : String :=
  xs.foldl (fun acc x => acc ++ f x) ""

/-- String attributes of a `CxxBuilder` after `__init__` (source lines
645-722). -/
structure CxxBuilderState where
  _compiler : String
  _sources_args : String
  _cflags_args : String
  _definations_args : String
  _include_dirs_args : String
  _ldflags_args : String
  _libraries_dirs_args : String
  _libraries_args : String
  _passthough_parameters_args : String
  _name : String
  _output_dir : String
  _target_file : String
deriving DecidableEq, Repr

/-- Source lines 664-722, `CxxBuilder.__init__`: join the sources with
spaces, compute the target path, and render each option list with its
OS-specific syntax. -/
def CxxBuilder_init (cfg : Config) (name : String) (sources : List String)
    (BuildOption : BuildOptionsState) (output_dir : String) : CxxBuilderState :=
  let w := cfg.os = OSKind.windows
  { _compiler := BuildOption._compiler,
    _sources_args := String.intercalate " " sources,
    _cflags_args := accumArgs (cflag_arg w) BuildOption._cflags,
    _definations_args := accumArgs (defination_arg w) BuildOption._definations,
    _include_dirs_args := accumArgs (include_dir_arg w) BuildOption._include_dirs,
    _ldflags_args := accumArgs (ldflag_arg w) BuildOption._ldflags,
    _libraries_dirs_args := accumArgs (libraries_dir_arg w) BuildOption._libraries_dirs,
    _libraries_args := accumArgs (library_arg w) BuildOption._libraries,
    _passthough_parameters_args := accumArgs passthough_arg_fmt BuildOption._passthough_args,
    _name := name,
    _output_dir := output_dir,
    _target_file := osPathJoin output_dir (name ++ get_shared_lib_ext cfg) }

/-- Source lines 724-764, `get_command_line`: the OS-specific command-line
shapes (the Windows shape also maps backslashes to slashes). -/
def get_command_line (cfg : Config) (b : CxxBuilderState) : String :=
  if cfg.os = OSKind.windows then
    replaceBackslash
      (b._compiler ++ " " ++ b._include_dirs_args ++ " " ++ b._definations_args ++ " "
        ++ b._cflags_args ++ " " ++ b._sources_args ++ " "
        ++ b._passthough_parameters_args ++ " /LD /Fe" ++ b._target_file
        ++ " /link " ++ b._libraries_dirs_args ++ " " ++ b._libraries_args ++ " "
        ++ b._ldflags_args ++ " ")
  else
    b._compiler ++ " " ++ b._sources_args ++ " " ++ b._definations_args ++ " "
      ++ b._cflags_args ++ " " ++ b._include_dirs_args ++ " "
      ++ b._passthough_parameters_args ++ " " ++ b._ldflags_args ++ " "
      ++ b._libraries_args ++ " " ++ b._libraries_dirs_args ++ " -o " ++ b._target_file

/-- Source lines 769-784, `CxxBuilder.build`: ensure the output and scratch
directories exist, run the rendered command, remove the scratch directory,
and return `(status, target)`.  The subprocess outcome is an input.  When
`run_command_line` raises, the exception propagates before the
`_remove_dir` call, so the returned filesystem keeps the scratch directory;
note that the `status` returned on success is the captured output of
`subprocess.check_output`, not a numeric exit status. -/
def CxxBuilder_build (cfg : Config) (b : CxxBuilderState) (fs : FS)
    (exitStatus : Nat) (captured : String) :
    FS × Except CppCompileError (String × String) :=
  let fs := _create_if_dir_not_exist fs b._output_dir
  let build_tmp_dir := osPathJoin b._output_dir (b._name ++ "_" ++ _BUILD_TEMP_DIR)
  let fs := _create_if_dir_not_exist fs build_tmp_dir
  let build_cmd := get_command_line cfg b
  match run_command_line (cfg.os = OSKind.darwin) build_cmd exitStatus captured with
  | Except.ok status => (_remove_dir fs build_tmp_dir, Except.ok (status, b._target_file))
  | Except.error e => (fs, Except.error e)

/-- Concrete Linux/GCC environment used by witnesses and counterexamples. -/
def cfgLinuxGcc : Config :=
  { os := OSKind.linux, machine := "x86_64",
    aot_inductor_debug_compile := false, cpp_enable_unsafe_math_opt_flag := false,
    is_fbcode := false, env_cxx := none, cpp_compiler := "g++",
    is_apple_clang := false, omp_prefix_var := none, conda_prefix_var := none,
    conda_llvm_openmp_installed := false, homebrew_libomp := (false, ""),
    path_exists := fun _ => false, which_ok := fun _ => false,
    chosen_isa := "avx512", isa_arch_flags := "-march=skylake-avx512",
    torch_path := "/opt/torch", torch_lib_path := "/opt/torch/lib",
    python_include_path := some "/usr/include/python3.10",
    python_lib_dir := "/usr/lib", python_exec_dir := "/usr/bin",
    glibcxx_abi := true, cutlass_dir := "/opt/cutlass", cuda_home := "/usr/local/cuda",
    cuda_cxx := none, env_cudacxx := none, env_cuda_home := none,
    cuda_arch := "90", enable_cuda_lto := false, enable_debug_info := false,
    enable_ptxas_info := false, use_fast_math := false, compile_opt_level := "-O1" }

/-- Concrete option set fed to the builder fixtures. -/
def optFoo : BuildOptionsState :=
  { _compiler := "g++", _definations := ["D1"], _include_dirs := ["/inc"],
    _cflags := ["O3"], _ldflags := ["shared"], _libraries_dirs := ["/libs"],
    _libraries := ["torch"], _passthough_args := ["-fsize"] }

/-- Concrete builder for target `libfoo` in output directory `out`. -/
def builderFoo : CxxBuilderState :=
  CxxBuilder_init cfgLinuxGcc "libfoo" ["a.cpp", "b.cpp"] optFoo "out"

/-- C1: for every combination of policy toggles and environment facts
(encoded in `cfg`), constructing the same options class twice yields
identical flag lists — the second `__init__`, which in the source runs on
the shared class-level lists left by the first, leaves the state unchanged —
and each of the seven lists of a constructed option set is duplicate-free;
moreover every `_nonduplicate_append` keeps the existing entries in place as
a front segment (insertion order preserved, first occurrence wins). -/
theorem C1_compose_twice_identical_and_nodup (cfg : Config) :
    (CxxOptions_init cfg (CxxOptions_init cfg emptyBuildOptions)
        = CxxOptions_init cfg emptyBuildOptions
      ∧ CxxTorchOptions_init cfg (CxxTorchOptions_init cfg emptyBuildOptions)
        = CxxTorchOptions_init cfg emptyBuildOptions
      ∧ CxxTorchCudaOptions_init cfg (CxxTorchCudaOptions_init cfg emptyBuildOptions).1
        = CxxTorchCudaOptions_init cfg emptyBuildOptions)
    ∧ (nodupState (CxxOptions_init cfg emptyBuildOptions)
      ∧ nodupState (CxxTorchOptions_init cfg emptyBuildOptions)
      ∧ nodupState (CxxTorchCudaOptions_init cfg emptyBuildOptions).1)
    ∧ (∀ d src, ∃ t, _nonduplicate_append d src = d ++ t) := by
  refine ⟨⟨?_, ?_, ?_⟩, ⟨?_, ?_, ?_⟩, nda_extendsBy⟩
  · simp only [CxxOptions_init_canon, applyChains_idem]
  · simp only [CxxTorchOptions_init_canon, applyChains_idem]
  · simp only [CxxTorchCudaOptions_init_canon, applyChains_idem]
  · rw [CxxOptions_init_canon]
    exact applyChains_nodup _ _ _ emptyBuildOptions_nodup
  · rw [CxxTorchOptions_init_canon]
    exact applyChains_nodup _ _ _ emptyBuildOptions_nodup
  · rw [CxxTorchCudaOptions_init_canon]
    exact applyChains_nodup _ _ _ emptyBuildOptions_nodup

/-- C4 counterexample: after a `CxxOptions` is constructed, constructing a
`CxxTorchOptions` runs `__init__` on the same class-level lists, so the
definations list observed through the previously constructed `CxxOptions`
instance (the shared state) is changed by the derived construction: no copy
of the parent lists is taken. -/
theorem C4_counterexample :
    (CxxTorchOptions_init cfgLinuxGcc (CxxOptions_init cfgLinuxGcc emptyBuildOptions))._definations
      ≠ (CxxOptions_init cfgLinuxGcc emptyBuildOptions)._definations := by decide

/-- C4 amended: `BuildOptionsBase` instances are not immutable records with
copied lists; all instances share the seven class-level lists, and a derived
construction appends into them in place.  What does hold: the lists held by
the previously constructed parent stay as front segments of the shared lists
after the derived construction (entries are only appended, never reordered
or duplicated). -/
theorem C4_amended_shared_lists_extend (cfg : Config) (s : BuildOptionsState) :
    extendsState (CxxOptions_init cfg s) (CxxTorchOptions_init cfg (CxxOptions_init cfg s))
      ∧ extendsState (CxxTorchOptions_init cfg s)
          (CxxTorchCudaOptions_init cfg (CxxTorchOptions_init cfg s)).1 := by
  constructor
  · rw [CxxTorchOptions_init_canon]
    exact applyChains_extendsState _ _ _
  · rw [CxxTorchCudaOptions_init_canon]
    exact applyChains_extendsState _ _ _

theorem mem_create_self (fs : FS) (p : String) :
    p ∈ (_create_if_dir_not_exist fs p).dirs := by
  unfold _create_if_dir_not_exist
  by_cases h : p ∈ fs.dirs
  · rwa [if_pos h]
  · rw [if_neg h]
    exact List.mem_append_right _ (List.mem_singleton_self p)

theorem not_mem_remove_self (fs : FS) (p : String) :
    p ∉ (_remove_dir fs p).dirs := by
  intro h
  have hp := (List.mem_filter.mp h).2
  simp at hp

/-- C2 counterexample: a failing build (non-zero exit status) returns with
the scratch directory `out/libfoo_CxxBuild` still on the filesystem, because
the `CppCompileError` raised by `run_command_line` propagates before the
`_remove_dir` call in `build`. -/
theorem C2_counterexample :
    "out/libfoo_CxxBuild" ∈ (CxxBuilder_build cfgLinuxGcc builderFoo ⟨[]⟩ 1 "boom").1.dirs := by
  decide

/-- C2 amended: after `build()` returns normally (the subprocess exited with
status zero) the scratch directory `<output_dir>/<name>_CxxBuild` no longer
exists; but when the subprocess fails, `run_command_line` raises before
`_remove_dir` runs, and the scratch directory still exists. -/
theorem C2_amended_tmp_dir_removed_iff_success (cfg : Config) (b : CxxBuilderState)
    (fs : FS) (exitStatus : Nat) (captured : String) :
    (exitStatus = 0 →
        osPathJoin b._output_dir (b._name ++ "_" ++ _BUILD_TEMP_DIR)
          ∉ (CxxBuilder_build cfg b fs exitStatus captured).1.dirs)
      ∧ (¬ exitStatus = 0 →
        osPathJoin b._output_dir (b._name ++ "_" ++ _BUILD_TEMP_DIR)
          ∈ (CxxBuilder_build cfg b fs exitStatus captured).1.dirs) := by
  constructor
  · intro h0
    unfold CxxBuilder_build run_command_line
    simp only [h0, if_pos, reduceIte]
    exact not_mem_remove_self _ _
  · intro hne
    unfold CxxBuilder_build run_command_line
    simp only [if_neg hne]
    exact mem_create_self _ _

/-- C2 witness: at the concrete builder fixture, a successful build leaves no
scratch directory while a failing build leaves one. -/
theorem C2_witness :
    osPathJoin "out" ("libfoo" ++ "_" ++ _BUILD_TEMP_DIR)
        ∉ (CxxBuilder_build cfgLinuxGcc builderFoo ⟨[]⟩ 0 "ok").1.dirs
      ∧ osPathJoin "out" ("libfoo" ++ "_" ++ _BUILD_TEMP_DIR)
        ∈ (CxxBuilder_build cfgLinuxGcc builderFoo ⟨[]⟩ 1 "boom").1.dirs :=
  ⟨(C2_amended_tmp_dir_removed_iff_success cfgLinuxGcc builderFoo ⟨[]⟩ 0 "ok").1 rfl,
   (C2_amended_tmp_dir_removed_iff_success cfgLinuxGcc builderFoo ⟨[]⟩ 1 "boom").2 (by decide)⟩

/-- C3 code bug: on a successful build the first component of the returned
pair is the captured stdout of `subprocess.check_output` (here the string
`ok-output`), not the integer exit status promised by the annotation
`Tuple[int, str]` and the spec; the second component is the artifact path
`<output_dir>/<name>.so` as claimed. -/
theorem C3_build_returns_captured_output_not_exit_status :
    (CxxBuilder_build cfgLinuxGcc builderFoo ⟨[]⟩ 0 "ok-output").2
      = Except.ok ("ok-output", "out/libfoo.so") := by
  rfl

/-- Flag list of a freshly composed `CxxOptions` (first construction from the
pristine class state). -/
def cxx_cflags_fresh (cfg : Config) : List String :=
  (CxxOptions_init cfg emptyBuildOptions)._cflags

/-- C5: with OS Linux, compiler gcc, `debug_compile` off and
`enable_unsafe_math_opt_flag` off, the composed compiler-flag list contains
`O3`, `DNDEBUG`, `ffast-math`, `fno-finite-math-only` and
`fno-unsafe-math-optimizations`, and does not contain `O0` (for every fbcode
setting and machine kind). -/
theorem C5_release_optimization_flags (cfg : Config)
    (hos : cfg.os = OSKind.linux) (hdbg : cfg.aot_inductor_debug_compile = false)
    (hmath : cfg.cpp_enable_unsafe_math_opt_flag = false)
    (hcc : cfg.cpp_compiler = "g++") :
    "O3" ∈ cxx_cflags_fresh cfg ∧ "DNDEBUG" ∈ cxx_cflags_fresh cfg
      ∧ "ffast-math" ∈ cxx_cflags_fresh cfg
      ∧ "fno-finite-math-only" ∈ cxx_cflags_fresh cfg
      ∧ "fno-unsafe-math-optimizations" ∈ cxx_cflags_fresh cfg
      ∧ "O0" ∉ cxx_cflags_fresh cfg := by
  obtain ⟨os, machine, dbg, uns, fb, ecxx, cc, apcl, ompv, condav, condallvm, brew,
    pexists, whichok, isa, isaflags, tpath, tlib, pyinc, pylib, pyexec, abi, cutlass,
    cudahome, cudacxx, envcudacxx, envcudahome, arch, lto, dbginfo, ptxas, fast,
    optlevel⟩ := cfg
  simp only at hos hdbg hmath hcc
  subst hos hdbg hmath hcc
  unfold cxx_cflags_fresh CxxOptions_init _get_cxx_compiler _get_shared_cflag
    optimization_cflags get_warning_all_flag get_cxx_std get_linux_cpp_cflags
  cases fb <;> by_cases hm : machine = "ppc64le" <;>
    simp only [hm, reduceIte, reduceCtorEq] <;> decide

/-- C5 witness: the concrete Linux/GCC release configuration satisfies the
hypotheses and the flag memberships. -/
theorem C5_witness :
    (cfgLinuxGcc.os = OSKind.linux ∧ cfgLinuxGcc.aot_inductor_debug_compile = false
        ∧ cfgLinuxGcc.cpp_enable_unsafe_math_opt_flag = false
        ∧ cfgLinuxGcc.cpp_compiler = "g++")
      ∧ ("O3" ∈ cxx_cflags_fresh cfgLinuxGcc ∧ "DNDEBUG" ∈ cxx_cflags_fresh cfgLinuxGcc
        ∧ "ffast-math" ∈ cxx_cflags_fresh cfgLinuxGcc
        ∧ "fno-finite-math-only" ∈ cxx_cflags_fresh cfgLinuxGcc
        ∧ "fno-unsafe-math-optimizations" ∈ cxx_cflags_fresh cfgLinuxGcc
        ∧ "O0" ∉ cxx_cflags_fresh cfgLinuxGcc) :=
  ⟨⟨rfl, rfl, rfl, rfl⟩, C5_release_optimization_flags cfgLinuxGcc rfl rfl rfl rfl⟩

/-- C6 counterexample: on Windows the rendered library reference for `torch`
is the quoted file name token, which begins with a double quote, not with
`/`. -/
theorem C6_counterexample :
    library_arg true "torch" = "\"torch.lib\" "
      ∧ ¬ (library_arg true "torch").data.head? = some '/' := by
  decide

theorem accumArgs_front (f : String → String) (xs : List String) (acc : String) :
    ∃ r : List Char, (xs.foldl (fun a y => a ++ f y) acc).data = acc.data ++ r := by
  induction xs generalizing acc with
  | nil => exact ⟨[], (List.append_nil _).symm⟩
  | cons y t ih =>
    obtain ⟨r, hr⟩ := ih (acc ++ f y)
    exact ⟨(f y).data ++ r, by rw [List.foldl_cons, hr, String.data_append, List.append_assoc]⟩

theorem accumArgs_piece (f : String → String) (xs1 xs2 : List String) (x : String) :
    ∃ u v : List Char,
      (accumArgs f (xs1 ++ x :: xs2)).data = u ++ (f x).data ++ v := by
  unfold accumArgs
  rw [List.foldl_append, List.foldl_cons]
  obtain ⟨r, hr⟩ := accumArgs_front f xs2 (List.foldl (fun a y => a ++ f y) "" xs1 ++ f x)
  exact ⟨(List.foldl (fun a y => a ++ f y) "" xs1).data, r,
    by rw [hr, String.data_append, List.append_assoc]⟩

/-- C6 amended: on Windows the rendered cflag, defination, include-dir,
ldflag and library-dir fragments each begin with `/`, while a library is
referenced as a quoted file name ending in `.lib` plus the closing quote —
it does not carry the `/` that the claim asserts for every token; on Unix
every fragment begins with `-` and each library is referenced as
`-l<name>`, which occurs verbatim in the accumulated libraries string;
pass-through arguments are forwarded verbatim. -/
theorem C6_amended_token_shapes (x : String) :
    ((cflag_arg true x).data.head? = some '/'
      ∧ (defination_arg true x).data.head? = some '/'
      ∧ (include_dir_arg true x).data.head? = some '/'
      ∧ (ldflag_arg true x).data.head? = some '/'
      ∧ (libraries_dir_arg true x).data.head? = some '/'
      ∧ (∃ u : List Char, (library_arg true x).data = u ++ (".lib\" ").data))
    ∧ ((cflag_arg false x).data.head? = some '-'
      ∧ (defination_arg false x).data.head? = some '-'
      ∧ (include_dir_arg false x).data.head? = some '-'
      ∧ (ldflag_arg false x).data.head? = some '-'
      ∧ (libraries_dir_arg false x).data.head? = some '-'
      ∧ library_arg false x = "-l" ++ x ++ " ")
    ∧ passthough_arg_fmt x = x ++ " "
    ∧ (∀ libs1 libs2 : List String,
        ∃ u v : List Char,
          (accumArgs (library_arg false) (libs1 ++ x :: libs2)).data
            = u ++ ("-l" ++ x ++ " ").data ++ v) := by
  refine ⟨⟨?_, ?_, ?_, ?_, ?_, ?_⟩, ⟨?_, ?_, ?_, ?_, ?_, rfl⟩, rfl, ?_⟩
  · simp [cflag_arg, String.data_append]
  · simp [defination_arg, String.data_append]
  · simp [include_dir_arg, String.data_append]
  · simp [ldflag_arg, String.data_append]
  · simp [libraries_dir_arg, String.data_append]
  · exact ⟨'"' :: x.data, by simp [library_arg, String.data_append]⟩
  · simp [cflag_arg, String.data_append]
  · simp [defination_arg, String.data_append]
  · simp [include_dir_arg, String.data_append]
  · simp [ldflag_arg, String.data_append]
  · simp [libraries_dir_arg, String.data_append]
  · intro libs1 libs2
    exact accumArgs_piece (library_arg false) libs1 libs2 x

theorem get_command_line_unix (cfg : Config) (b : CxxBuilderState)
    (hosw : ¬ (cfg.os = OSKind.windows)) :
    get_command_line cfg b
      = b._compiler ++ " " ++ b._sources_args ++ " " ++ b._definations_args ++ " "
        ++ b._cflags_args ++ " " ++ b._include_dirs_args ++ " "
        ++ b._passthough_parameters_args ++ " " ++ b._ldflags_args ++ " "
        ++ b._libraries_args ++ " " ++ b._libraries_dirs_args ++ " -o " ++ b._target_file := by
  unfold get_command_line
  rw [if_neg hosw]

/-- Command line rendered for target `libfoo` built from `a.cpp` and `b.cpp`
with an arbitrary option set. -/
def cmd_line_libfoo (cfg : Config) (opt : BuildOptionsState) (output_dir : String) : String :=
  get_command_line cfg (CxxBuilder_init cfg "libfoo" ["a.cpp", "b.cpp"] opt output_dir)

/-- C7: for every option set, the Linux command line for sources `a.cpp`,
`b.cpp` and target `libfoo` ends with `-o <output_dir>/libfoo.so` and
contains the space-joined sources verbatim, immediately after the compiler
and before the other argument groups. -/
theorem C7_unix_command_line_shape (cfg : Config) (opt : BuildOptionsState)
    (output_dir : String) (hos : cfg.os = OSKind.linux)
    (h1 : ¬ output_dir = "") (h2 : strHasTail output_dir "/" = false) :
    (∃ u : List Char,
        (cmd_line_libfoo cfg opt output_dir).data
          = u ++ ("-o " ++ (output_dir ++ "/" ++ "libfoo.so")).data)
      ∧ (∃ v : List Char,
        (cmd_line_libfoo cfg opt output_dir).data
          = (opt._compiler ++ " ").data ++ ("a.cpp b.cpp").data ++ v) := by
  have hosw : ¬ (cfg.os = OSKind.windows) := by
    rw [hos]
    exact fun h => OSKind.noConfusion h
  set b := CxxBuilder_init cfg "libfoo" ["a.cpp", "b.cpp"] opt output_dir with hb
  have hcl := get_command_line_unix cfg b hosw
  have hsrc : b._sources_args = "a.cpp b.cpp" := rfl
  have hcomp : b._compiler = opt._compiler := rfl
  have htarget : b._target_file = output_dir ++ "/" ++ "libfoo.so" := by
    show osPathJoin output_dir ("libfoo" ++ get_shared_lib_ext cfg) = _
    unfold get_shared_lib_ext
    rw [if_neg hosw]
    show osPathJoin output_dir "libfoo.so" = _
    unfold osPathJoin
    rw [if_neg h1, if_neg (by simp [h2])]
  constructor
  · refine ⟨(b._compiler ++ " " ++ b._sources_args ++ " " ++ b._definations_args ++ " "
        ++ b._cflags_args ++ " " ++ b._include_dirs_args ++ " "
        ++ b._passthough_parameters_args ++ " " ++ b._ldflags_args ++ " "
        ++ b._libraries_args ++ " " ++ b._libraries_dirs_args ++ " ").data, ?_⟩
    show (cmd_line_libfoo cfg opt output_dir).data = _
    rw [show cmd_line_libfoo cfg opt output_dir = get_command_line cfg b from rfl, hcl, htarget]
    rw [show (" -o " : String) = " " ++ "-o " from rfl]
    simp [String.data_append, List.append_assoc]
  · refine ⟨(" " ++ b._definations_args ++ " " ++ b._cflags_args ++ " "
        ++ b._include_dirs_args ++ " " ++ b._passthough_parameters_args ++ " "
        ++ b._ldflags_args ++ " " ++ b._libraries_args ++ " "
        ++ b._libraries_dirs_args ++ " -o " ++ b._target_file).data, ?_⟩
    show (cmd_line_libfoo cfg opt output_dir).data = _
    rw [show cmd_line_libfoo cfg opt output_dir = get_command_line cfg b from rfl, hcl,
      hsrc, hcomp]
    simp [String.data_append, List.append_assoc]

/-- C7 witness: the concrete fixture satisfies the hypotheses and the shape
facts. -/
theorem C7_witness :
    cfgLinuxGcc.os = OSKind.linux ∧ ¬ ("out" : String) = "" ∧ strHasTail "out" "/" = false
      ∧ ((∃ u : List Char, (cmd_line_libfoo cfgLinuxGcc optFoo "out").data
            = u ++ ("-o " ++ ("out" ++ "/" ++ "libfoo.so")).data)
        ∧ (∃ v : List Char, (cmd_line_libfoo cfgLinuxGcc optFoo "out").data
            = (optFoo._compiler ++ " ").data ++ ("a.cpp b.cpp").data ++ v)) :=
  ⟨rfl, by decide, rfl,
   C7_unix_command_line_shape cfgLinuxGcc optFoo "out" rfl (by decide) rfl⟩

theorem listContainsSub_append_right (a : List Char) {b pat : List Char}
    (h : listContainsSub b pat = true) : listContainsSub (a ++ b) pat = true := by
  induction a with
  | nil => simpa using h
  | cons c t ih =>
    show (listStartsWith (c :: (t ++ b)) pat || listContainsSub (t ++ b) pat) = true
    rw [ih]
    exact Bool.or_true _

theorem strContains_append_right (a : String) {b pat : String}
    (h : strContains b pat = true) : strContains (a ++ b) pat = true := by
  unfold strContains at h ⊢
  rw [String.data_append]
  exact listContainsSub_append_right a.data h

set_option maxRecDepth 100000 in
/-- C8: when the subprocess exits non-zero, `run_command_line` raises a
`CppCompileError` carrying the split command line and the full captured
combined output (the captured output stays as a front segment of the error
output); and on macOS, output containing `libomp` or the missing `omp.h`
signature gets the remediation text appended, so the error output contains
`OMP_PREFIX` and the four numbered suggested fixes. -/
theorem C8_compile_error_contents (darwin : Bool) (cmd_line output : String)
    (exitStatus : Nat) (h : ¬ exitStatus = 0) :
    ∃ e : CppCompileError,
      run_command_line darwin cmd_line exitStatus output = Except.error e
        ∧ e.cmd = shlex_split cmd_line
        ∧ (∃ t, e.output = output ++ t)
        ∧ (darwin = true →
            (strContains output "libomp" = true
              ∨ strContains output "\x27omp.h\x27 file not found" = true) →
            strContains e.output "OMP_PREFIX" = true
              ∧ strContains e.output "(1)" = true ∧ strContains e.output "(2)" = true
              ∧ strContains e.output "(3)" = true ∧ strContains e.output "(4)" = true) := by
  unfold run_command_line
  rw [if_neg h]
  by_cases hp : (strContains output "\x27omp.h\x27 file not found"
      || strContains output "libomp") = true
  · cases darwin with
    | true =>
      rw [hp]
      refine ⟨⟨shlex_split cmd_line, output ++ openmp_instruction⟩, rfl, rfl,
        ⟨openmp_instruction, rfl⟩, ?_⟩
      intro _ _
      refine ⟨strContains_append_right output (by decide),
        strContains_append_right output (by decide),
        strContains_append_right output (by decide),
        strContains_append_right output (by decide),
        strContains_append_right output (by decide)⟩
    | false =>
      rw [hp]
      refine ⟨⟨shlex_split cmd_line, output⟩, rfl, rfl,
        ⟨"", by rw [String.append_empty]⟩, ?_⟩
      intro hfalse
      exact absurd hfalse (by decide)
  · have hp' : (strContains output "\x27omp.h\x27 file not found"
        || strContains output "libomp") = false := by
      revert hp
      cases (strContains output "\x27omp.h\x27 file not found"
        || strContains output "libomp") <;> simp
    rw [hp']
    refine ⟨⟨shlex_split cmd_line, output⟩, by simp, rfl,
      ⟨"", by rw [String.append_empty]⟩, ?_⟩
    intro _ hor
    rcases hor with hc | hc <;>
      simp [hc, Bool.or_eq_false_iff] at hp'

/-- C8 witness: a concrete failing macOS invocation whose output mentions
`libomp`. -/
theorem C8_witness :
    ¬ (1 : Nat) = 0
      ∧ ∃ e : CppCompileError,
        run_command_line true "cc x.cpp" 1 "ld: library not found: libomp" = Except.error e
          ∧ e.cmd = shlex_split "cc x.cpp"
          ∧ (∃ t, e.output = "ld: library not found: libomp" ++ t)
          ∧ (true = true →
              (strContains "ld: library not found: libomp" "libomp" = true
                ∨ strContains "ld: library not found: libomp"
                    "\x27omp.h\x27 file not found" = true) →
              strContains e.output "OMP_PREFIX" = true
                ∧ strContains e.output "(1)" = true ∧ strContains e.output "(2)" = true
                ∧ strContains e.output "(3)" = true ∧ strContains e.output "(4)" = true) :=
  ⟨by decide,
   C8_compile_error_contents true "cc x.cpp" "ld: library not found: libomp" 1 (by decide)⟩

/-- C9 counterexample: on Linux outside fbcode the clang family links `gomp`,
exactly as the gcc family does, and does not link `omp`; the compiler family
does not determine which of the two OpenMP runtimes is linked. -/
theorem C9_counterexample :
    (get_openmp_args cfgLinuxGcc "clang++").libs = ["gomp"]
      ∧ (get_openmp_args cfgLinuxGcc "g++").libs = ["gomp"]
      ∧ ¬ (get_openmp_args cfgLinuxGcc "clang++").libs = ["omp"] := by
  decide

/-- C9 amended: on Linux the selected OpenMP library is independent of the
compiler family: outside fbcode both the clang branch and the gcc branch of
`get_openmp_args` link `gomp` (with cflag `fopenmp`); `omp` is linked only
in fbcode mode. -/
theorem C9_amended_linux_openmp_lib (cfg : Config) (cpp_compiler : String)
    (hos : cfg.os = OSKind.linux) :
    (cfg.is_fbcode = false →
        (get_openmp_args cfg cpp_compiler).libs = ["gomp"]
          ∧ (get_openmp_args cfg cpp_compiler).cflags = ["fopenmp"])
      ∧ (cfg.is_fbcode = true → (get_openmp_args cfg cpp_compiler).libs = ["omp"]) := by
  unfold get_openmp_args
  rw [hos]
  constructor
  · intro hfb
    rw [hfb]
    by_cases hcl : is_clang cpp_compiler = true <;> simp [hcl]
  · intro hfb
    rw [hfb]
    simp

/-- C9 witness: concrete Linux clang configuration outside fbcode. -/
theorem C9_witness :
    cfgLinuxGcc.os = OSKind.linux
      ∧ ((cfgLinuxGcc.is_fbcode = false →
            (get_openmp_args cfgLinuxGcc "clang++").libs = ["gomp"]
              ∧ (get_openmp_args cfgLinuxGcc "clang++").cflags = ["fopenmp"])
        ∧ (cfgLinuxGcc.is_fbcode = true →
            (get_openmp_args cfgLinuxGcc "clang++").libs = ["omp"])) :=
  ⟨rfl, C9_amended_linux_openmp_lib cfgLinuxGcc "clang++" rfl⟩

theorem data_nil_eq_empty {b : String} (h : b.data = []) : b = "" := by
  cases b with
  | mk l =>
    cases h
    rfl

theorem append_ne_empty_right (a : String) {b : String} (hb : ¬ b = "") :
    ¬ (a ++ b) = "" := by
  intro h
  apply hb
  have hd : (a ++ b).data = [] := by rw [h]
  rw [String.data_append] at hd
  exact data_nil_eq_empty (List.append_eq_nil.mp hd).2

theorem osPathJoin_ne_empty (a : String) {b : String} (hb : ¬ b = "") :
    ¬ osPathJoin a b = "" := by
  unfold osPathJoin
  by_cases h1 : a = ""
  · rw [if_pos h1]
    exact hb
  · rw [if_neg h1]
    by_cases h2 : strHasTail a "/" = true
    · simp only [h2, reduceIte]
      exact append_ne_empty_right a hb
    · simp only [h2, Bool.false_eq_true, reduceIte]
      exact append_ne_empty_right (a ++ "/") hb

/-- C10: for every environment in which the `which` probe rejects the empty
path, `_cuda_compiler` returns a compiler string that is neither `None` nor
empty — falling back to the literal `nvcc` when no candidate names an
existing one — so `CxxTorchCudaOptions.__init__` always installs it as the
compiler, and on Linux the construction completes without signalling a
missing CUDA toolchain (the error component is `none`): toolchain absence
can only surface later, at compile time. -/
theorem C10_cuda_compiler_total (cfg : Config) (h : cfg.which_ok "" = false) :
    ∃ s : String, _cuda_compiler cfg = some s ∧ ¬ s = ""
      ∧ (∀ s0 : BuildOptionsState, ((CxxTorchCudaOptions_init cfg s0).1)._compiler = s)
      ∧ (cfg.os = OSKind.linux →
          ∀ s0 : BuildOptionsState, (CxxTorchCudaOptions_init cfg s0).2 = none) := by
  have key : ∃ s : String, _cuda_compiler cfg = some s ∧ ¬ s = "" := by
    unfold _cuda_compiler
    by_cases h1 : nvcc_exist cfg cfg.cuda_cxx = true
    · rw [if_pos h1]
      cases hc : cfg.cuda_cxx with
      | none =>
        rw [hc] at h1
        exact absurd h1 (by simp [nvcc_exist])
      | some p =>
        refine ⟨p, rfl, ?_⟩
        intro hp
        rw [hc, hp] at h1
        simp only [nvcc_exist] at h1
        rw [h] at h1
        exact Bool.false_ne_true h1
    · rw [if_neg h1]
      by_cases h2 : nvcc_exist cfg cfg.env_cudacxx = true
      · rw [if_pos h2]
        cases hc : cfg.env_cudacxx with
        | none =>
          rw [hc] at h2
          exact absurd h2 (by simp [nvcc_exist])
        | some p =>
          refine ⟨p, rfl, ?_⟩
          intro hp
          rw [hc, hp] at h2
          simp only [nvcc_exist] at h2
          rw [h] at h2
          exact Bool.false_ne_true h2
      · rw [if_neg h2]
        by_cases h3 : nvcc_exist cfg cfg.env_cuda_home = true
        · rw [if_pos h3]
          exact ⟨osPathJoin (cfg.env_cuda_home.getD "") "bin/nvcc", rfl,
            osPathJoin_ne_empty _ (by decide)⟩
        · rw [if_neg h3]
          exact ⟨"nvcc", rfl, by decide⟩
  obtain ⟨s, hs, hne⟩ := key
  refine ⟨s, hs, hne, ?_, ?_⟩
  · intro s0
    rw [CxxTorchCudaOptions_init_canon]
    show cuda_resolved_compiler cfg = s
    unfold cuda_resolved_compiler
    rw [hs]
  · intro hl s0
    rw [CxxTorchCudaOptions_init_canon]
    show cudaErr cfg = none
    unfold cudaErr
    rw [hl]
    simp

/-- C10 witness: the concrete configuration (every `which` probe failing)
still resolves the fallback compiler `nvcc`. -/
theorem C10_witness :
    cfgLinuxGcc.which_ok "" = false
      ∧ ∃ s : String, _cuda_compiler cfgLinuxGcc = some s ∧ ¬ s = ""
          ∧ (∀ s0 : BuildOptionsState,
              ((CxxTorchCudaOptions_init cfgLinuxGcc s0).1)._compiler = s)
          ∧ (cfgLinuxGcc.os = OSKind.linux →
              ∀ s0 : BuildOptionsState,
                (CxxTorchCudaOptions_init cfgLinuxGcc s0).2 = none) :=
  ⟨rfl, C10_cuda_compiler_total cfgLinuxGcc rfl⟩
